import Mathlib

/-!
# Verification of `camera.py` (raspberry_pi_photo_booth)

A shallow embedding of the photo-booth program `camera.py` and proofs about
its session orchestration, overlay handling, idle-loop polling, directory
creation, session naming and teardown.

The embedding has two complementary views of the program, each translated
directly from the source:

* a *trace semantics* for the screen functions (`prep_for_photo_screen`,
  `taking_photo`, `playback_screen`) and the session body of `main`
  (lines 272-277): each camera / filesystem / sleep side effect becomes an
  `Event` appended to an explicit trace carried in a `PState`;
* a *control-flow semantics* for the idle polling loop of `main`
  (lines 235-287): one loop iteration becomes a pure function from the
  per-cycle inputs (button edges, serial arrivals) and the loop-carried
  state (blink counter, overlay alpha, serial buffer) to a poll result.

Python strings are modelled by Lean `String` (an immutable character
sequence); Python integers by `Nat`/`Int`; `None`-or-value results by
`Bool`/`Option`; raised `OSError`s by `Except OSErrno`.
-/

namespace PhotoBooth

/-! ## Decimal rendering (Python `str(int)` and `%02d`/`%04d` padding) -/

/-- The character for a single decimal digit (`0` to `9`). -/
def digitChar : Nat → Char
  | 0 => '0' | 1 => '1' | 2 => '2' | 3 => '3' | 4 => '4'
  | 5 => '5' | 6 => '6' | 7 => '7' | 8 => '8' | 9 => '9'
  | _ => '*'

/-- Inverse of `digitChar` on genuine digits. -/
def undigit : Char → Nat
  | '0' => 0 | '1' => 1 | '2' => 2 | '3' => 3 | '4' => 4
  | '5' => 5 | '6' => 6 | '7' => 7 | '8' => 8 | '9' => 9
  | _ => 0

theorem undigit_digitChar : ∀ d, d < 10 → undigit (digitChar d) = d := by decide

/-- Most-significant-first decimal digits of `n`; the fuel argument makes the
recursion structural (the wrapper `natDigits` always supplies enough). -/
def natDigitsAux : Nat → Nat → List Nat
  | 0, _ => []
  | fuel + 1, n => if n < 10 then [n] else natDigitsAux fuel (n / 10) ++ [n % 10]

/-- Decimal digits of `n`, most significant first. -/
def natDigits (n : Nat) : List Nat := natDigitsAux (n + 1) n

/-- Reassemble a most-significant-first digit list into a number. -/
def fromDigits (l : List Nat) : Nat := l.foldl (fun a d => 10 * a + d) 0

theorem natDigitsAux_eq_of_lt :
    ∀ fuel fuel' n, n < fuel → n < fuel' → natDigitsAux fuel n = natDigitsAux fuel' n := by
  intro fuel
  induction fuel with
  | zero => intro fuel' n h; omega
  | succ f ih =>
    intro fuel' n h h'
    match fuel', h' with
    | f' + 1, _ =>
      simp only [natDigitsAux]
      by_cases h10 : n < 10
      · simp [h10]
      · have hdiv : n / 10 < n := Nat.div_lt_self (by omega) (by omega)
        simp only [h10, if_false]
        rw [ih f' (n / 10) (by omega) (by omega)]

theorem natDigits_eq_aux (fuel n : Nat) (h : n < fuel) :
    natDigitsAux fuel n = natDigits n :=
  natDigitsAux_eq_of_lt fuel (n + 1) n h (Nat.lt_succ_self n)

theorem natDigits_unfold (n : Nat) :
    natDigits n = if n < 10 then [n] else natDigits (n / 10) ++ [n % 10] := by
  have hstep : natDigits n = if n < 10 then [n] else natDigitsAux n (n / 10) ++ [n % 10] := rfl
  by_cases h10 : n < 10
  · simp [hstep, h10]
  · have hdiv : n / 10 < n := Nat.div_lt_self (by omega) (by omega)
    rw [hstep, if_neg h10, if_neg h10, natDigits_eq_aux n (n / 10) hdiv]

theorem fromDigits_append_singleton (l : List Nat) (d : Nat) :
    fromDigits (l ++ [d]) = 10 * fromDigits l + d := by
  simp [fromDigits, List.foldl_append]

theorem fromDigits_natDigits (n : Nat) : fromDigits (natDigits n) = n := by
  induction n using Nat.strong_induction_on with
  | _ n ih =>
    rw [natDigits_unfold]
    by_cases h10 : n < 10
    · simp [h10, fromDigits]
    · have hdiv : n / 10 < n := Nat.div_lt_self (by omega) (by omega)
      simp only [h10, if_false]
      rw [fromDigits_append_singleton, ih (n / 10) hdiv]
      omega

theorem natDigits_lt_ten (n : Nat) : ∀ d ∈ natDigits n, d < 10 := by
  induction n using Nat.strong_induction_on with
  | _ n ih =>
    rw [natDigits_unfold]
    by_cases h10 : n < 10
    · simp [h10]
    · have hdiv : n / 10 < n := Nat.div_lt_self (by omega) (by omega)
      simp only [h10, if_false]
      intro d hd
      rcases List.mem_append.1 hd with h | h
      · exact ih (n / 10) hdiv d h
      · simp at h; omega

/-- Python `str(n)` for a non-negative integer. -/
def pyStr (n : Nat) : String := ⟨(natDigits n).map digitChar⟩

theorem map_undigit_digitChar {l : List Nat} (h : ∀ d ∈ l, d < 10) :
    (l.map digitChar).map undigit = l := by
  induction l with
  | nil => rfl
  | cons a t ih =>
    simp only [List.map_cons, List.cons.injEq]
    exact ⟨undigit_digitChar a (h a (List.mem_cons_self a t)),
           ih (fun d hd => h d (List.mem_cons_of_mem a hd))⟩

theorem pyStr_inj {a b : Nat} (h : pyStr a = pyStr b) : a = b := by
  have hdata : (natDigits a).map digitChar = (natDigits b).map digitChar := by
    simpa [pyStr] using congrArg String.data h
  have : natDigits a = natDigits b := by
    have := congrArg (List.map undigit) hdata
    rwa [map_undigit_digitChar (natDigits_lt_ten a),
         map_undigit_digitChar (natDigits_lt_ten b)] at this
  calc a = fromDigits (natDigits a) := (fromDigits_natDigits a).symm
    _ = fromDigits (natDigits b) := by rw [this]
    _ = b := fromDigits_natDigits b

theorem string_data_append (a b : String) : (a ++ b).data = a.data ++ b.data := by
  cases a; cases b; rfl

/-! ## Configuration (camera.py lines 20-37)

The debug flags and the two user-configured constants they override.
`total_pics_cfg` and `prep_delay_cfg` model the values written at lines 28-29
(4 and 10 in the checked-in file); lines 35-37 replace them by 1 and 1 when
`TESTMODE_FAST` is set. -/

structure Config where
  TESTMODE_AUTOPRESS_BUTTON : Bool
  TESTMODE_FAST : Bool
  total_pics_cfg : Nat
  prep_delay_cfg : Nat
deriving DecidableEq

/-- `total_pics` as seen by the rest of the program (lines 28, 35-36). -/
def total_pics (c : Config) : Nat := if c.TESTMODE_FAST then 1 else c.total_pics_cfg

/-- `prep_delay` as seen by the rest of the program (lines 29, 35-37). -/
def prep_delay (c : Config) : Nat := if c.TESTMODE_FAST then 1 else c.prep_delay_cfg

/-- Local `blink_speed = 2` of `main` (line 234). -/
def blink_speed : Nat := 2

/-! ## Observable side effects of the program (trace events)

Each constructor is one call the program makes against a collaborator:
console, camera annotation, sleeping, the filesystem, the still-capture
primitive, and the preview overlay surface.  Overlay handles are encoded as
`Int`: `camera.add_overlay` handles are the strictly positive integers
(allocated from `PState.nextId`), and `-1` is the program's own "no overlay"
sentinel (see `overlay_image`/`remove_overlay` in the source).  Every
reachable handle value is nonzero, so Python truthiness of a handle
(`if prev_overlay:`) coincides with `≠ 0` on this encoding. -/

inductive Event
  | consolePrint (s : String)
  | annotateSize (n : Nat)
  | annotateText (s : String)
  | sleepMs (ms : Nat)
  | mkdirs (path : String)
  | captureStill (path : String)
  | addOverlay (path : String) (layer : Nat) (oid : Int)
  | removeOverlay (oid : Int)
  | stopPreview
  | closeCamera
  | gpioCleanup
deriving DecidableEq

/-- OS error kinds relevant to `os.makedirs` (`errno.EEXIST` vs anything else). -/
inductive OSErrno
  | eexist
  | eacces
  | enospc
  | eio
deriving DecidableEq

/-- The filesystem environment: `fail p` injects a non-`EEXIST` failure for
`os.makedirs(p)` (permissions, disk full, ...).  `EEXIST` itself is never
injected because `os.makedirs` raises it exactly when the directory already
exists, which the explicit directory set models. -/
structure OSEnv where
  fail : String → Option OSErrno
  fail_ne_eexist : ∀ p, fail p ≠ some OSErrno.eexist

/-- `os.makedirs(p)` against a set of existing directories: raises `EEXIST`
if `p` exists, otherwise creates it unless the environment injects a
failure. -/
def makedirs (env : OSEnv) (dirs : List String) (p : String) :
    Except OSErrno (List String) :=
  if p ∈ dirs then .error .eexist
  else
    match env.fail p with
    | some e => .error e
    | none => .ok (p :: dirs)

/-- The `try: os.makedirs(dirname) / except OSError: raise unless EEXIST`
block of `taking_photo` (camera.py lines 164-168). -/
def ensureDir (env : OSEnv) (dirs : List String) (p : String) :
    Except OSErrno (List String) :=
  match makedirs env dirs p with
  | .ok dirs' => .ok dirs'
  | .error e => if e = .eexist then .ok dirs else .error e

/-- Program state threaded through the trace semantics: the set of existing
directories, the next fresh overlay-handle number, and the event trace so
far. -/
structure PState where
  dirs : List String
  nextId : Nat
  trace : List Event
deriving DecidableEq

/-- Append one event to the trace. -/
def emit (e : Event) (s : PState) : PState := { s with trace := s.trace ++ [e] }

/-- `remove_overlay(overlay_id)` (lines 89-94): a no-op on the `-1`
sentinel, otherwise `camera.remove_overlay`. -/
def remove_overlay (oid : Int) (s : PState) : PState :=
  if oid ≠ -1 then emit (.removeOverlay oid) s else s

/-- `print_overlay(string_to_print, size)` (lines 65-71): print to console,
set `camera.annotate_text_size`, set `camera.annotate_text`. -/
def print_overlay (str : String) (size : Nat) (s : PState) : PState :=
  emit (.annotateText str) (emit (.annotateSize size) (emit (.consolePrint str) s))

/-- `overlay_image(image_path, duration, layer)` (lines 97-139): add the
(padded) image as an overlay at the given layer; with a positive duration,
sleep, remove the overlay again and return the `-1` sentinel; otherwise
return the live handle.  Durations are in milliseconds (`sleep(0.1)` is
`100`).  A fresh strictly positive handle is allocated per call. -/
def overlay_image (path : String) (durationMs : Nat) (layer : Nat) (s : PState) :
    Int × PState :=
  let oid : Int := (s.nextId + 1 : Nat)
  let s := { s with
    nextId := s.nextId + 1,
    trace := s.trace ++ [.addOverlay path layer oid] }
  if durationMs > 0 then
    let s := emit (.removeOverlay oid) (emit (.sleepMs durationMs) s)
    (-1, s)
  else
    (oid, s)

section Screens

-- `REAL_PATH` (line 60): the directory the script itself lives in.
variable (REAL_PATH : String)

/-- Name of the image file for photo `pn` of a session, exactly the
expression `filename_prefix + '/' + str(photo_number) + 'of' +
str(total_pics) + '.jpg'` used at lines 161 and 199. -/
def photoFilename (cfg : Config) (baseName : String) (pn : Nat) : String :=
  baseName ++ "/" ++ pyStr pn ++ "of" ++ pyStr (total_pics cfg) ++ ".jpg"

set_option linter.unusedVariables false in
/-- `prep_for_photo_screen(photo_number)` (lines 145-152): show the
"get ready" asset for `prep_delay` seconds (the argument is unused in the
source as well). -/
def prep_for_photo_screen (cfg : Config) (photo_number : Nat) (s : PState) : PState :=
  (overlay_image (REAL_PATH ++ "/assets/get_ready.png") (prep_delay cfg * 1000) 3 s).2

/-- `taking_photo(photo_number, filename_prefix)` (lines 154-182): ensure the
session directory exists (re-raising any non-`EEXIST` error), count down
3, 2, 1 at one-second intervals in size-160 text, clear the text, capture the
still to the session path, then flash white for 0.1 s. -/
def taking_photo (cfg : Config) (env : OSEnv) (photo_number : Nat)
    (baseName : String) (s : PState) : Except OSErrno PState :=
  let dirname := baseName
  let filename := photoFilename cfg baseName photo_number
  let s := emit (.mkdirs dirname) s
  match ensureDir env s.dirs dirname with
  | .error e => .error e
  | .ok dirs' =>
    let s := { s with dirs := dirs' }
    let s := [3, 2, 1].foldl
      (fun st c => emit (.sleepMs 1000) (print_overlay (pyStr c) 160 st)) s
    let s := emit (.annotateText "") s
    let s := emit (.captureStill filename) s
    let s := (overlay_image (REAL_PATH ++ "/assets/white.png") 100 3 s).2
    let s := emit (.consolePrint
      ("Photo (" ++ pyStr photo_number ++ ") saved: " ++ filename)) s
    .ok s

/-- One iteration of the playback loop of `playback_screen` (lines 198-205):
add the overlay for this photo (duration `False`, i.e. persistent, at layer
`3 + total_pics`), then — only after the new overlay is up — remove the
previous one (`if prev_overlay:` is Python truthiness, here `≠ 0`), and
sleep one second. -/
def playbackIter (cfg : Config) (baseName : String) (photo_number : Nat)
    (prev : Int) (s : PState) : Int × PState :=
  let filename := photoFilename cfg baseName photo_number
  let res := overlay_image filename 0 (3 + total_pics cfg) s
  let s := if prev ≠ 0 then remove_overlay prev res.2 else res.2
  let s := emit (.sleepMs 1000) s
  (res.1, s)

/-- The `for photo_number in range(1, total_pics + 1)` loop of
`playback_screen`, threading `prev_overlay`. -/
def playbackLoop (cfg : Config) (baseName : String) :
    List Nat → Int → PState → Int × PState
  | [], prev, s => (prev, s)
  | pn :: rest, prev, s =>
    let res := playbackIter cfg baseName pn prev s
    playbackLoop cfg baseName rest res.1 res.2

/-- `playback_screen(filename_prefix)` (lines 185-211): persistent
"processing" overlay, slideshow of the captured photos, removal of the last
photo overlay, then the "all done" asset for 20 seconds. -/
def playback_screen (cfg : Config) (baseName : String) (s : PState) : PState :=
  let s := emit (.consolePrint "Processing...") s
  let res := overlay_image (REAL_PATH ++ "/assets/processing.png") 0 3 s
  let lp := playbackLoop cfg baseName (List.range' 1 (total_pics cfg)) res.1 res.2
  let s := remove_overlay lp.1 lp.2
  let s := emit (.consolePrint "All done!") s
  (overlay_image (REAL_PATH ++ "/assets/all_done.png") 20000 3 s).2

/-- The capture loop of `main` (lines 273-274):
`for photo_number in range(1, total_pics + 1): taking_photo(...)`.
A raised `OSError` aborts the loop and propagates. -/
def capLoop (cfg : Config) (env : OSEnv) (baseName : String) :
    List Nat → PState → Except OSErrno PState
  | [], s => .ok s
  | pn :: rest, s =>
    match taking_photo REAL_PATH cfg env pn baseName s with
    | .error e => .error e
    | .ok s' => capLoop cfg env baseName rest s'

/-- One complete capture session as run by `main` after a button press
(lines 272-277): preparation screen, `total_pics` captures, playback. -/
def sessionBody (cfg : Config) (env : OSEnv) (baseName : String) (s : PState) :
    Except OSErrno PState :=
  let s := prep_for_photo_screen REAL_PATH cfg 1 s
  match capLoop REAL_PATH cfg env baseName (List.range' 1 (total_pics cfg)) s with
  | .error e => .error e
  | .ok s' => .ok (playback_screen REAL_PATH cfg baseName s')

end Screens

/-! ## Closed forms of the screen traces

`tpEvents`, `pbLoopEvents` and `pbEvents` spell out, as flat event lists,
what one `taking_photo` call, the playback loop and the whole
`playback_screen` do.  The characterization lemmas below prove that the
state-passing definitions above produce exactly these traces. -/

/-- The countdown of `taking_photo`: 3, 2, 1 in size-160 text, one second
apart. -/
def countdownEvents : List Event :=
  [.consolePrint (pyStr 3), .annotateSize 160, .annotateText (pyStr 3), .sleepMs 1000,
   .consolePrint (pyStr 2), .annotateSize 160, .annotateText (pyStr 2), .sleepMs 1000,
   .consolePrint (pyStr 1), .annotateSize 160, .annotateText (pyStr 1), .sleepMs 1000]

/-- Everything one successful `taking_photo(pn, baseName)` call does, in
order: ensure the session directory, count down, clear the text, capture the
still to its deterministic path, flash white for 0.1 s, log.  `nid` is the
overlay-handle counter at entry. -/
def tpEvents (REAL_PATH : String) (cfg : Config) (baseName : String)
    (pn nid : Nat) : List Event :=
  .mkdirs baseName
    :: countdownEvents
    ++ [.annotateText "",
        .captureStill (photoFilename cfg baseName pn),
        .addOverlay (REAL_PATH ++ "/assets/white.png") 3 ((nid + 1 : Nat) : Int),
        .sleepMs 100,
        .removeOverlay ((nid + 1 : Nat) : Int),
        .consolePrint ("Photo (" ++ pyStr pn ++ ") saved: "
          ++ photoFilename cfg baseName pn)]

/-- `taking_photo` characterized: it emits `tpEvents` and allocates one
overlay handle, unless `os.makedirs` fails with a non-`EEXIST` error, in
which case that error propagates (aborting the session). -/
theorem taking_photo_spec (REAL_PATH : String) (cfg : Config) (env : OSEnv)
    (pn : Nat) (baseName : String) (s : PState) :
    taking_photo REAL_PATH cfg env pn baseName s =
      match ensureDir env s.dirs baseName with
      | .error e => .error e
      | .ok dirs' =>
        .ok ⟨dirs', s.nextId + 1,
             s.trace ++ tpEvents REAL_PATH cfg baseName pn s.nextId⟩ := by
  cases h : ensureDir env s.dirs baseName with
  | error e =>
    simp [taking_photo, emit, h]
  | ok dirs' =>
    simp [taking_photo, emit, h, print_overlay, overlay_image, tpEvents,
      countdownEvents, List.append_assoc]

/-- Trace of the capture loop: one `tpEvents` block per photo number, with
the overlay counter advancing by one per photo. -/
def capLoopEvents (REAL_PATH : String) (cfg : Config) (baseName : String) :
    List Nat → Nat → List Event
  | [], _ => []
  | pn :: rest, nid =>
    tpEvents REAL_PATH cfg baseName pn nid
      ++ capLoopEvents REAL_PATH cfg baseName rest (nid + 1)

theorem ensureDir_of_fail_none (env : OSEnv) (dirs : List String) (p : String)
    (h : env.fail p = none) :
    ensureDir env dirs p = .ok (if p ∈ dirs then dirs else p :: dirs) := by
  by_cases hp : p ∈ dirs <;> simp [ensureDir, makedirs, hp, h]

/-- When the OS does not inject a failure for the session directory, the
whole capture loop succeeds and emits exactly `capLoopEvents`. -/
theorem capLoop_spec (REAL_PATH : String) (cfg : Config) (env : OSEnv)
    (baseName : String) (h : env.fail baseName = none) :
    ∀ (l : List Nat) (s : PState), ∃ s',
      capLoop REAL_PATH cfg env baseName l s = .ok s' ∧
      s'.trace = s.trace ++ capLoopEvents REAL_PATH cfg baseName l s.nextId ∧
      s'.nextId = s.nextId + l.length := by
  intro l
  induction l with
  | nil => intro s; exact ⟨s, rfl, by simp [capLoopEvents], rfl⟩
  | cons pn rest ih =>
    intro s
    have htp := taking_photo_spec REAL_PATH cfg env pn baseName s
    rw [ensureDir_of_fail_none env s.dirs baseName h] at htp
    set dirs' := if baseName ∈ s.dirs then s.dirs else baseName :: s.dirs with hd
    obtain ⟨s', hrun, htrace, hnid⟩ :=
      ih ⟨dirs', s.nextId + 1, s.trace ++ tpEvents REAL_PATH cfg baseName pn s.nextId⟩
    refine ⟨s', ?_, ?_, ?_⟩
    · simp only [capLoop, htp]
      exact hrun
    · simp only [htrace, capLoopEvents, List.append_assoc]
    · simp only [hnid]
      simp [List.length_cons]
      omega

/-- `overlay_image` with no duration: add the overlay and hand back its
(fresh, strictly positive) handle. -/
theorem overlay_image_persistent (path : String) (layer : Nat) (s : PState) :
    overlay_image path 0 layer s =
      (((s.nextId + 1 : Nat) : Int),
       ⟨s.dirs, s.nextId + 1,
        s.trace ++ [.addOverlay path layer ((s.nextId + 1 : Nat) : Int)]⟩) := by
  simp [overlay_image]

/-- `overlay_image` with a positive duration: add, sleep, remove, return the
`-1` sentinel. -/
theorem overlay_image_timed (path : String) (d layer : Nat) (hd : 0 < d)
    (s : PState) :
    overlay_image path d layer s =
      (-1,
       ⟨s.dirs, s.nextId + 1,
        s.trace ++ [.addOverlay path layer ((s.nextId + 1 : Nat) : Int),
                    .sleepMs d, .removeOverlay ((s.nextId + 1 : Nat) : Int)]⟩) := by
  simp [overlay_image, emit, hd, List.append_assoc]

theorem remove_overlay_real (oid : Int) (h : oid ≠ -1) (s : PState) :
    remove_overlay oid s = emit (.removeOverlay oid) s := by
  simp [remove_overlay, h]

/-- Trace of the playback `for` loop starting with overlay counter `nid` and
previous persistent overlay `prev`: for each photo, the new overlay is added
*first*, the previous one removed *after*, then a one-second wait. -/
def pbLoopEvents (cfg : Config) (baseName : String) :
    List Nat → Nat → Int → List Event
  | [], _, _ => []
  | pn :: rest, nid, prev =>
    .addOverlay (photoFilename cfg baseName pn) (3 + total_pics cfg) ((nid + 1 : Nat) : Int)
      :: .removeOverlay prev
      :: .sleepMs 1000
      :: pbLoopEvents cfg baseName rest (nid + 1) ((nid + 1 : Nat) : Int)

/-- The playback loop characterized: it emits `pbLoopEvents`, allocates one
handle per photo, and hands back the last photo's handle (or `prev` when
there are no photos). -/
theorem playbackLoop_spec (cfg : Config) (baseName : String) :
    ∀ (l : List Nat) (prev : Int) (s : PState), 0 < prev →
      playbackLoop cfg baseName l prev s =
        ((if l.length = 0 then prev else ((s.nextId + l.length : Nat) : Int)),
         ⟨s.dirs, s.nextId + l.length,
          s.trace ++ pbLoopEvents cfg baseName l s.nextId prev⟩) := by
  intro l
  induction l with
  | nil =>
    intro prev s _
    simp [playbackLoop, pbLoopEvents]
  | cons pn rest ih =>
    intro prev s hprev
    have hne : prev ≠ 0 := by omega
    have hne' : prev ≠ -1 := by omega
    have hstep :
        playbackIter cfg baseName pn prev s =
          (((s.nextId + 1 : Nat) : Int),
           ⟨s.dirs, s.nextId + 1,
            s.trace ++
              [.addOverlay (photoFilename cfg baseName pn) (3 + total_pics cfg)
                  ((s.nextId + 1 : Nat) : Int),
               .removeOverlay prev, .sleepMs 1000]⟩) := by
      simp only [playbackIter, overlay_image_persistent]
      rw [if_pos hne, remove_overlay_real prev hne']
      simp [emit, List.append_assoc]
    have hrec := ih ((s.nextId + 1 : Nat) : Int)
      ⟨s.dirs, s.nextId + 1,
       s.trace ++
         [.addOverlay (photoFilename cfg baseName pn) (3 + total_pics cfg)
             ((s.nextId + 1 : Nat) : Int),
          .removeOverlay prev, .sleepMs 1000]⟩ (by omega)
    simp only [playbackLoop, hstep, hrec]
    cases rest with
    | nil => simp [pbLoopEvents, List.append_assoc]
    | cons a t =>
      simp [pbLoopEvents, List.append_assoc, Nat.add_assoc, Nat.add_comm 1]

/-- Everything `playback_screen` does, in order, starting from overlay
counter `n`: the "processing" overlay goes up, the slideshow runs with the
add-before-remove discipline, the last photo overlay comes down, and the
"all done" overlay is shown for 20 seconds and removed again. -/
def pbEvents (REAL_PATH : String) (cfg : Config) (baseName : String) (n : Nat) :
    List Event :=
  .consolePrint "Processing..."
    :: .addOverlay (REAL_PATH ++ "/assets/processing.png") 3 ((n + 1 : Nat) : Int)
    :: (pbLoopEvents cfg baseName (List.range' 1 (total_pics cfg)) (n + 1)
          ((n + 1 : Nat) : Int)
        ++ [.removeOverlay ((n + 1 + total_pics cfg : Nat) : Int),
            .consolePrint "All done!",
            .addOverlay (REAL_PATH ++ "/assets/all_done.png") 3
              ((n + 1 + total_pics cfg + 1 : Nat) : Int),
            .sleepMs 20000,
            .removeOverlay ((n + 1 + total_pics cfg + 1 : Nat) : Int)])

/-- `playback_screen` characterized: it emits exactly `pbEvents` and
allocates `total_pics + 2` overlay handles. -/
theorem playback_screen_spec (REAL_PATH : String) (cfg : Config)
    (baseName : String) (s : PState) :
    playback_screen REAL_PATH cfg baseName s =
      ⟨s.dirs, s.nextId + 1 + total_pics cfg + 1,
       s.trace ++ pbEvents REAL_PATH cfg baseName s.nextId⟩ := by
  have hloop := playbackLoop_spec cfg baseName (List.range' 1 (total_pics cfg))
    ((s.nextId + 1 : Nat) : Int)
    ⟨s.dirs, s.nextId + 1,
     s.trace ++ [.consolePrint "Processing...",
       .addOverlay (REAL_PATH ++ "/assets/processing.png") 3 ((s.nextId + 1 : Nat) : Int)]⟩
    (by omega)
  have hlast :
      (if total_pics cfg = 0 then ((s.nextId + 1 : Nat) : Int)
        else ((s.nextId + 1 + total_pics cfg : Nat) : Int))
        = ((s.nextId + 1 + total_pics cfg : Nat) : Int) := by
    by_cases h0 : total_pics cfg = 0
    · simp [h0]
    · simp [h0]
  have hne : ((s.nextId + 1 + total_pics cfg : Nat) : Int) ≠ -1 := by omega
  show (overlay_image (REAL_PATH ++ "/assets/all_done.png") 20000 3
      (emit (.consolePrint "All done!")
        (remove_overlay
          (playbackLoop cfg baseName (List.range' 1 (total_pics cfg))
            (overlay_image (REAL_PATH ++ "/assets/processing.png") 0 3
              (emit (.consolePrint "Processing...") s)).1
            (overlay_image (REAL_PATH ++ "/assets/processing.png") 0 3
              (emit (.consolePrint "Processing...") s)).2).1
          (playbackLoop cfg baseName (List.range' 1 (total_pics cfg))
            (overlay_image (REAL_PATH ++ "/assets/processing.png") 0 3
              (emit (.consolePrint "Processing...") s)).1
            (overlay_image (REAL_PATH ++ "/assets/processing.png") 0 3
              (emit (.consolePrint "Processing...") s)).2).2))).2 = _
  rw [show overlay_image (REAL_PATH ++ "/assets/processing.png") 0 3
        (emit (.consolePrint "Processing...") s) =
      (((s.nextId + 1 : Nat) : Int),
       ⟨s.dirs, s.nextId + 1,
        s.trace ++ [.consolePrint "Processing...",
          .addOverlay (REAL_PATH ++ "/assets/processing.png") 3
            ((s.nextId + 1 : Nat) : Int)]⟩) from by
    simp [overlay_image_persistent, emit, List.append_assoc]]
  rw [hloop]
  simp only [List.length_range']
  simp only [hlast]
  rw [remove_overlay_real _ hne]
  rw [overlay_image_timed _ 20000 3 (by omega)]
  simp [emit, pbEvents, List.append_assoc]

/-- Trace of `prep_for_photo_screen`: the "get ready" overlay held for
`prep_delay` seconds. -/
def prepEvents (REAL_PATH : String) (cfg : Config) (n : Nat) : List Event :=
  [.addOverlay (REAL_PATH ++ "/assets/get_ready.png") 3 ((n + 1 : Nat) : Int),
   .sleepMs (prep_delay cfg * 1000),
   .removeOverlay ((n + 1 : Nat) : Int)]

theorem prep_for_photo_screen_spec (REAL_PATH : String) (cfg : Config)
    (pn : Nat) (s : PState) (hp : 0 < prep_delay cfg) :
    prep_for_photo_screen REAL_PATH cfg pn s =
      ⟨s.dirs, s.nextId + 1, s.trace ++ prepEvents REAL_PATH cfg s.nextId⟩ := by
  have hd : 0 < prep_delay cfg * 1000 := by omega
  simp [prep_for_photo_screen, overlay_image_timed _ _ _ hd, prepEvents]

/-- The full trace of one session (preparation, `total_pics` captures,
playback), starting from overlay counter `n`. -/
def sessionEvents (REAL_PATH : String) (cfg : Config) (baseName : String)
    (n : Nat) : List Event :=
  prepEvents REAL_PATH cfg n
    ++ capLoopEvents REAL_PATH cfg baseName (List.range' 1 (total_pics cfg)) (n + 1)
    ++ pbEvents REAL_PATH cfg baseName (n + 1 + total_pics cfg)

/-- When the OS does not inject a failure for the session directory and the
preparation delay is positive, the session body runs to completion and emits
exactly `sessionEvents`. -/
theorem sessionBody_spec (REAL_PATH : String) (cfg : Config) (env : OSEnv)
    (baseName : String) (s : PState) (h : env.fail baseName = none)
    (hp : 0 < prep_delay cfg) :
    ∃ s', sessionBody REAL_PATH cfg env baseName s = .ok s' ∧
      s'.trace = s.trace ++ sessionEvents REAL_PATH cfg baseName s.nextId := by
  obtain ⟨s1, hrun, htrace, hnid⟩ := capLoop_spec REAL_PATH cfg env baseName h
    (List.range' 1 (total_pics cfg))
    ⟨s.dirs, s.nextId + 1, s.trace ++ prepEvents REAL_PATH cfg s.nextId⟩
  refine ⟨playback_screen REAL_PATH cfg baseName s1, ?_, ?_⟩
  · simp only [sessionBody, prep_for_photo_screen_spec REAL_PATH cfg 1 s hp, hrun]
  · rw [playback_screen_spec, htrace, hnid]
    simp [sessionEvents, List.append_assoc, List.length_range']

/-- The file paths written by the still-capture primitive along a trace
(`camera.capture` is the only call in the program that writes a file). -/
def capturePaths (tr : List Event) : List String :=
  tr.filterMap (fun e => match e with | .captureStill p => some p | _ => none)

theorem capturePaths_append (l l' : List Event) :
    capturePaths (l ++ l') = capturePaths l ++ capturePaths l' :=
  List.filterMap_append l l' _

theorem capturePaths_tpEvents (REAL_PATH : String) (cfg : Config)
    (baseName : String) (pn nid : Nat) :
    capturePaths (tpEvents REAL_PATH cfg baseName pn nid)
      = [photoFilename cfg baseName pn] := rfl

theorem capturePaths_capLoopEvents (REAL_PATH : String) (cfg : Config)
    (baseName : String) :
    ∀ (l : List Nat) (nid : Nat),
      capturePaths (capLoopEvents REAL_PATH cfg baseName l nid)
        = l.map (photoFilename cfg baseName) := by
  intro l
  induction l with
  | nil => intro nid; rfl
  | cons pn rest ih =>
    intro nid
    simp only [capLoopEvents, capturePaths_append, capturePaths_tpEvents,
      List.map_cons, ih]
    rfl

theorem capturePaths_pbLoopEvents (cfg : Config) (baseName : String) :
    ∀ (l : List Nat) (nid : Nat) (prev : Int),
      capturePaths (pbLoopEvents cfg baseName l nid prev) = [] := by
  intro l
  induction l with
  | nil => intro nid prev; rfl
  | cons pn rest ih =>
    intro nid prev
    simp only [pbLoopEvents]
    show capturePaths (pbLoopEvents cfg baseName rest (nid + 1) _) = []
    exact ih (nid + 1) _

theorem capturePaths_pbEvents (REAL_PATH : String) (cfg : Config)
    (baseName : String) (n : Nat) :
    capturePaths (pbEvents REAL_PATH cfg baseName n) = [] := by
  simp only [pbEvents]
  show capturePaths
    (pbLoopEvents cfg baseName (List.range' 1 (total_pics cfg)) (n + 1)
        ((n + 1 : Nat) : Int)
      ++ [.removeOverlay ((n + 1 + total_pics cfg : Nat) : Int),
          .consolePrint "All done!",
          .addOverlay (REAL_PATH ++ "/assets/all_done.png") 3
            ((n + 1 + total_pics cfg + 1 : Nat) : Int),
          .sleepMs 20000,
          .removeOverlay ((n + 1 + total_pics cfg + 1 : Nat) : Int)]) = []
  rw [capturePaths_append, capturePaths_pbLoopEvents]
  rfl

theorem capturePaths_sessionEvents (REAL_PATH : String) (cfg : Config)
    (baseName : String) (n : Nat) :
    capturePaths (sessionEvents REAL_PATH cfg baseName n)
      = (List.range' 1 (total_pics cfg)).map (photoFilename cfg baseName) := by
  simp only [sessionEvents, capturePaths_append, capturePaths_capLoopEvents,
    capturePaths_pbEvents]
  show capturePaths (prepEvents REAL_PATH cfg n) ++ _ = _
  rw [show capturePaths (prepEvents REAL_PATH cfg n) = [] from rfl]
  simp

theorem pyStr_data_inj {a b : Nat} (h : (pyStr a).data = (pyStr b).data) :
    a = b := by
  have hdata : (natDigits a).map digitChar = (natDigits b).map digitChar := by
    simpa [pyStr] using h
  have : natDigits a = natDigits b := by
    have h2 := congrArg (List.map undigit) hdata
    rwa [map_undigit_digitChar (natDigits_lt_ten a),
         map_undigit_digitChar (natDigits_lt_ten b)] at h2
  calc a = fromDigits (natDigits a) := (fromDigits_natDigits a).symm
    _ = fromDigits (natDigits b) := by rw [this]
    _ = b := fromDigits_natDigits b

/-- Distinct photo numbers get distinct file names within one session. -/
theorem photoFilename_inj (cfg : Config) (baseName : String) {i j : Nat}
    (h : photoFilename cfg baseName i = photoFilename cfg baseName j) :
    i = j := by
  have hd := congrArg String.data h
  simp only [photoFilename, string_data_append, List.append_assoc] at hd
  have h1 := List.append_cancel_left hd
  have h2 := List.append_cancel_left h1
  exact pyStr_data_inj (List.append_cancel_right h2)

/-- The `total_pics` photo paths of a session are pairwise distinct. -/
theorem photoFilenames_nodup (cfg : Config) (baseName : String) :
    ((List.range' 1 (total_pics cfg)).map (photoFilename cfg baseName)).Nodup :=
  (List.nodup_range' 1 (total_pics cfg)).map
    (fun _ _ hij => photoFilename_inj cfg baseName hij)

/-! ## Live-overlay bookkeeping for the crossfade property -/

/-- The set (as a list) of persistent overlay handles currently on the
display surface, updated by one event. -/
def liveStep (live : List Int) : Event → List Int
  | .addOverlay _ _ oid => oid :: live
  | .removeOverlay oid => live.erase oid
  | _ => live

/-- `true` iff after every single event of `evs` (starting from the live
handles `live`) at least one overlay is still on the surface. -/
def allPrefixesLive : List Int → List Event → Bool
  | _, [] => true
  | live, e :: es =>
    let live' := liveStep live e
    !live'.isEmpty && allPrefixesLive live' es

/-- Crossfade invariant of the playback loop: starting from the single
previous overlay `prev`, at every instant of the slideshow at least one
overlay is up — each photo's overlay is added before `prev` is removed. -/
theorem pbLoopEvents_live (cfg : Config) (baseName : String) :
    ∀ (l : List Nat) (n : Nat) (p : Int), p < ((n + 1 : Nat) : Int) →
      allPrefixesLive [p] (pbLoopEvents cfg baseName l n p) = true := by
  intro l
  induction l with
  | nil => intro n p _; rfl
  | cons pn rest ih =>
    intro n p hp
    have hne : ¬((((n + 1 : Nat) : Int)) = p) := by omega
    simp only [pbLoopEvents, allPrefixesLive, liveStep]
    rw [List.erase_cons, if_neg (by simpa using hne), List.erase_cons,
      if_pos (by simp)]
    simp only [List.isEmpty, Bool.not_false, Bool.true_and]
    exact ih (n + 1) ((n + 1 : Nat) : Int) (by omega)

/-! ## The idle polling loop of `main` (camera.py lines 232-287)

One iteration of the `while True:` loop as a pure step function.  The
per-cycle inputs are whether `GPIO.wait_for_edge` saw a falling edge on each
button line within its timeout (`None` ↦ `false`) and how many serial bytes
arrived since the previous cycle; the loop-carried state is the blink
counter `i`, `overlay_2.alpha`, and the serial input buffer (`ser`). -/

structure CycleInput where
  btnEdge : Bool
  exitEdge : Bool
  serialArrived : Nat
deriving DecidableEq

/-- The unified trigger outcome of one poll cycle. -/
inductive PollResult
  | exitEv
  | captureEv
  | noneEv
deriving DecidableEq

structure IdleState where
  i : Nat
  alpha2 : Nat
  serialBuf : Nat
deriving DecidableEq

/-- Lines 237-264 of `main`: edge detection on both buttons, exit check,
serial check (drains the buffer and counts as a press), auto-press override,
then either the blink bookkeeping (on `None`) or a capture. -/
def pollCycle (cfg : Config) (inp : CycleInput) (st : IdleState) :
    PollResult × IdleState :=
  let is_pressed := inp.btnEdge
  let exit_button := inp.exitEdge
  let buf := st.serialBuf + inp.serialArrived
  if exit_button then (.exitEv, { st with serialBuf := buf })
  else
    let pressedBuf := if buf > 0 then (true, 0) else (is_pressed, buf)
    let is_pressed := if cfg.TESTMODE_AUTOPRESS_BUTTON then true else pressedBuf.1
    let buf := pressedBuf.2
    if is_pressed = false then
      let i := st.i + 1
      if i = blink_speed then (.noneEv, ⟨i, 255, buf⟩)
      else if i = 2 * blink_speed then (.noneEv, ⟨0, 0, buf⟩)
      else (.noneEv, ⟨i, st.alpha2, buf⟩)
    else (.captureEv, { st with serialBuf := buf })

/-- A poll cycle in which no trigger source fires. -/
def noneInput : CycleInput := ⟨false, false, 0⟩

/-- `n` consecutive all-quiet poll cycles. -/
def pollNones (cfg : Config) : Nat → IdleState → IdleState
  | 0, st => st
  | n + 1, st => pollNones cfg n (pollCycle cfg noneInput st).2

/-- Outcome of one full iteration of the `while True:` loop: whether a
capture session ran in it, and the idle state the loop continues with
(`none` when the loop is left by `return` or `break`). -/
structure IterOut where
  ranSession : Bool
  next : Option IdleState
deriving DecidableEq

/-- One iteration of `main`'s loop (lines 235-287).  On `Exit` the function
returns; on `None` the loop continues; on `Capture` the session runs
(its side effects are `sessionBody`), during which `serialDuring` further
serial bytes may arrive, and then either the loop breaks (auto-press test
mode) or the intro overlays are re-added (fresh overlay alpha 255) and the
serial input buffer is reset before polling resumes. -/
def mainIter (cfg : Config) (inp : CycleInput) (serialDuring : Nat)
    (st : IdleState) : IterOut :=
  match pollCycle cfg inp st with
  | (.exitEv, _) => ⟨false, none⟩
  | (.noneEv, st') => ⟨false, some st'⟩
  | (.captureEv, st') =>
    let stS := { st' with serialBuf := st'.serialBuf + serialDuring }
    if cfg.TESTMODE_AUTOPRESS_BUTTON then ⟨true, none⟩
    else ⟨true, some { stS with alpha2 := 255, serialBuf := 0 }⟩

/-! ## Top-level teardown (camera.py lines 289-302) -/

/-- How the call to `main()` inside the `try:` block ends. -/
inductive MainOutcome
  | normal
  | interrupted
  | failed (msg : String)
deriving DecidableEq

def isTeardown : Event → Bool
  | .stopPreview => true
  | .closeCamera => true
  | .gpioCleanup => true
  | _ => false

/-- The `try/except/finally` of `__main__`: whatever trace `main` produced
and however it ended, the handler (if any) prints, and then the `finally:`
block stops the preview, closes the camera and cleans up GPIO — once each,
in that order. -/
def mainWrapper (r : MainOutcome) (tr : List Event) : List Event :=
  tr
    ++ (match r with
        | .normal => []
        | .interrupted => [.consolePrint "goodbye"]
        | .failed msg => [.consolePrint ("unexpected error: " ++ msg)])
    ++ [.stopPreview, .closeCamera, .gpioCleanup]

/-! ## The session namer (camera.py lines 73-87)

`str(datetime.datetime.now()).split('.')[0]` is the local timestamp at
second resolution, `YYYY-MM-DD HH:MM:SS` with zero-padded fields; the
program then replaces every space by `_` and every colon by `-` in the whole
base path. -/

/-- A wall-clock timestamp at second resolution. -/
structure PyTimestamp where
  year : Nat
  month : Nat
  day : Nat
  hour : Nat
  minute : Nat
  second : Nat
deriving DecidableEq

/-- The documented field ranges of Python `datetime` values. -/
def ValidTs (t : PyTimestamp) : Prop :=
  1 ≤ t.year ∧ t.year ≤ 9999 ∧ 1 ≤ t.month ∧ t.month ≤ 12 ∧
    1 ≤ t.day ∧ t.day ≤ 31 ∧ t.hour ≤ 23 ∧ t.minute ≤ 59 ∧ t.second ≤ 59

instance (t : PyTimestamp) : Decidable (ValidTs t) := by
  unfold ValidTs; infer_instance

/-- Zero-padded two-digit rendering (`%02d`, fields < 100). -/
def pad2 (n : Nat) : List Char := [digitChar (n / 10), digitChar (n % 10)]

/-- Zero-padded four-digit rendering (`%04d`, fields < 10000). -/
def pad4 (n : Nat) : List Char :=
  [digitChar (n / 1000), digitChar (n / 100 % 10), digitChar (n / 10 % 10),
   digitChar (n % 10)]

/-- `str(datetime.datetime.now()).split('.')[0]`:
`YYYY-MM-DD HH:MM:SS`. -/
def fmtTimestamp (t : PyTimestamp) : List Char :=
  pad4 t.year ++ '-' :: pad2 t.month ++ '-' :: pad2 t.day
    ++ ' ' :: pad2 t.hour ++ ':' :: pad2 t.minute ++ ':' :: pad2 t.second

/-- Python `str.replace` for single-character patterns. -/
def pyReplace (s : String) (a b : Char) : String :=
  ⟨s.data.map (fun c => if c = a then b else c)⟩

/-- `get_base_filename_for_images()` (lines 73-87), with the current time
passed explicitly: `REAL_PATH + '/photos/' + <timestamp>`, then
`replace(' ', '_')`, then `replace(':', '-')`. -/
def get_base_filename_for_images (REAL_PATH : String) (now : PyTimestamp) :
    String :=
  let base := REAL_PATH ++ "/photos/" ++ (⟨fmtTimestamp now⟩ : String)
  let base := pyReplace base ' ' '_'
  let base := pyReplace base ':' '-'
  base

/-- The composite effect of the two `replace` calls on one character. -/
def sanitizeChar (c : Char) : Char :=
  if c = ':' then '-' else if c = ' ' then '_' else c

theorem sanitizeChar_comp (c : Char) :
    (if (if c = ' ' then '_' else c) = ':' then '-' else if c = ' ' then '_' else c)
      = sanitizeChar c := by
  by_cases h1 : c = ' '
  · simp [h1, sanitizeChar]
  · by_cases h2 : c = ':' <;> simp [h1, h2, sanitizeChar]

theorem get_base_data (REAL_PATH : String) (t : PyTimestamp) :
    (get_base_filename_for_images REAL_PATH t).data
      = (REAL_PATH.data ++ "/photos/".data).map sanitizeChar
        ++ (fmtTimestamp t).map sanitizeChar := by
  simp only [get_base_filename_for_images, pyReplace, string_data_append,
    List.map_map, ← List.map_append]
  congr 1
  funext c
  simpa [Function.comp] using sanitizeChar_comp c

theorem sanitize_digit : ∀ k, k < 10 → sanitizeChar (digitChar k) = digitChar k := by
  decide

/-- `noBadChars s` holds when `s` contains neither a space nor a colon. -/
def noBadChars (s : String) : Bool :=
  s.data.all (fun c => !(c == ' ') && !(c == ':'))

theorem sanitizeChar_good (c : Char) :
    sanitizeChar c ≠ ' ' ∧ sanitizeChar c ≠ ':' := by
  by_cases h1 : c = ':'
  · simp [sanitizeChar, h1]
  · by_cases h2 : c = ' ' <;> simp [sanitizeChar, h1, h2]

theorem noBadChars_get_base (REAL_PATH : String) (t : PyTimestamp) :
    noBadChars (get_base_filename_for_images REAL_PATH t) = true := by
  rw [noBadChars, get_base_data]
  rw [List.all_append]
  have hmap : ∀ (l : List Char),
      (l.map sanitizeChar).all (fun c => !(c == ' ') && !(c == ':')) = true := by
    intro l
    rw [List.all_map, List.all_eq_true]
    intro c _
    have := sanitizeChar_good c
    simp [Function.comp, this.1, this.2]
  rw [hmap, hmap]
  rfl

def val2 (a b : Char) : Nat := undigit a * 10 + undigit b

def val4 (a b c d : Char) : Nat :=
  undigit a * 1000 + undigit b * 100 + undigit c * 10 + undigit d

/-- Read a `YYYY-MM-DD*HH*MM*SS`-shaped 19-character suffix back into its
timestamp fields (separator characters are ignored). -/
def decode19 : List Char → Option PyTimestamp
  | [y1, y2, y3, y4, _, m1, m2, _, d1, d2, _, h1, h2, _, n1, n2, _, s1, s2] =>
    some ⟨val4 y1 y2 y3 y4, val2 m1 m2, val2 d1 d2, val2 h1 h2, val2 n1 n2,
          val2 s1 s2⟩
  | _ => none

/-- Recover the timestamp from the last 19 characters of a base filename. -/
def decodeBase (l : List Char) : Option PyTimestamp :=
  decode19 (l.drop (l.length - 19))

theorem fmt_map_sanitize (t : PyTimestamp) (h : ValidTs t) :
    (fmtTimestamp t).map sanitizeChar
      = pad4 t.year ++ '-' :: pad2 t.month ++ '-' :: pad2 t.day
        ++ '_' :: pad2 t.hour ++ '-' :: pad2 t.minute ++ '-' :: pad2 t.second := by
  obtain ⟨hy1, hy2, hm1, hm2, hd1, hd2, hh, hn, hs⟩ := h
  simp only [fmtTimestamp, pad4, pad2, List.map_append, List.map_cons,
    List.map_nil]
  rw [sanitize_digit (t.year / 1000) (by omega),
    sanitize_digit (t.year / 100 % 10) (by omega),
    sanitize_digit (t.year / 10 % 10) (by omega),
    sanitize_digit (t.year % 10) (by omega),
    sanitize_digit (t.month / 10) (by omega),
    sanitize_digit (t.month % 10) (by omega),
    sanitize_digit (t.day / 10) (by omega),
    sanitize_digit (t.day % 10) (by omega),
    sanitize_digit (t.hour / 10) (by omega),
    sanitize_digit (t.hour % 10) (by omega),
    sanitize_digit (t.minute / 10) (by omega),
    sanitize_digit (t.minute % 10) (by omega),
    sanitize_digit (t.second / 10) (by omega),
    sanitize_digit (t.second % 10) (by omega)]
  rfl

theorem decodeBase_get_base (REAL_PATH : String) (t : PyTimestamp)
    (h : ValidTs t) :
    decodeBase (get_base_filename_for_images REAL_PATH t).data = some t := by
  have hB := fmt_map_sanitize t h
  have hBlen : ((fmtTimestamp t).map sanitizeChar).length = 19 := by
    rw [hB]; simp [pad2, pad4]
  rw [decodeBase, get_base_data]
  have hlen :
      ((REAL_PATH.data ++ "/photos/".data).map sanitizeChar
          ++ (fmtTimestamp t).map sanitizeChar).length - 19
        = ((REAL_PATH.data ++ "/photos/".data).map sanitizeChar).length := by
    rw [List.length_append, hBlen]
    omega
  rw [hlen, List.drop_left, hB]
  obtain ⟨hy1, hy2, hm1, hm2, hd1, hd2, hh, hn, hs⟩ := h
  simp only [pad4, pad2]
  show some (PyTimestamp.mk _ _ _ _ _ _) = some t
  rw [Option.some_inj]
  have e4 : val4 (digitChar (t.year / 1000)) (digitChar (t.year / 100 % 10))
      (digitChar (t.year / 10 % 10)) (digitChar (t.year % 10)) = t.year := by
    rw [val4, undigit_digitChar _ (by omega), undigit_digitChar _ (by omega),
      undigit_digitChar _ (by omega), undigit_digitChar _ (by omega)]
    omega
  have e2 : ∀ n, n < 100 →
      val2 (digitChar (n / 10)) (digitChar (n % 10)) = n := by
    intro n hn100
    rw [val2, undigit_digitChar _ (by omega), undigit_digitChar _ (by omega)]
    omega
  cases t
  simp only at *
  rw [e4, e2 _ (by omega), e2 _ (by omega), e2 _ (by omega), e2 _ (by omega),
    e2 _ (by omega)]

/-- Session base names are injective on valid timestamps (for a fixed
program location). -/
theorem get_base_inj (REAL_PATH : String) {t t' : PyTimestamp}
    (h : ValidTs t) (h' : ValidTs t')
    (heq : get_base_filename_for_images REAL_PATH t
      = get_base_filename_for_images REAL_PATH t') : t = t' := by
  have h2 := congrArg decodeBase (congrArg String.data heq)
  rwa [decodeBase_get_base REAL_PATH t h, decodeBase_get_base REAL_PATH t' h',
    Option.some_inj] at h2

/-! ## Concrete instances used by the witness theorems -/

/-- Whether a session run succeeded. -/
def runOk : Except OSErrno PState → Bool
  | .ok _ => true
  | .error _ => false

/-- The trace of a session run (empty on an aborted run). -/
def runTrace : Except OSErrno PState → List Event
  | .ok s => s.trace
  | .error _ => []

/-- A filesystem environment that never injects a failure. -/
def envOk : OSEnv := ⟨fun _ => none, fun _ => by simp⟩

/-- A filesystem environment in which every creation fails with `EACCES`. -/
def envFail : OSEnv := ⟨fun _ => some .eacces, fun _ => by simp⟩

/-- The checked-in configuration: both debug flags off, 4 photos, 10 s prep. -/
def cfgNormal : Config := ⟨false, false, 4, 10⟩

/-- The checked-in configuration with only `TESTMODE_FAST` switched on. -/
def cfgFastOnly : Config := ⟨false, true, 4, 10⟩

/-- A fresh program state: no directories, no overlays, empty trace. -/
def st0 : PState := ⟨[], 0, []⟩

/-! ## The claims -/

set_option linter.unusedVariables false in
/-- C1: For every configured `total_pics = N ≥ 1`, a session that runs to
completion (here: the OS injects no failure for the session directory, so
`sessionBody` returns `ok`) writes exactly `N` image files into its session
directory: the still-capture paths of its trace are precisely
`baseName/1ofN.jpg` .. `baseName/NofN.jpg`, pairwise distinct and `N` in
number, and — `captureStill` being the only file-writing effect of the
program — no other file is written. -/
theorem claim_C1 (REAL_PATH : String) (cfg : Config) (env : OSEnv)
    (baseName : String) (s : PState)
    (hN : 1 ≤ total_pics cfg) (hp : 0 < prep_delay cfg)
    (henv : env.fail baseName = none) :
    runOk (sessionBody REAL_PATH cfg env baseName s) = true ∧
    capturePaths (runTrace (sessionBody REAL_PATH cfg env baseName s))
      = capturePaths s.trace
        ++ (List.range' 1 (total_pics cfg)).map (photoFilename cfg baseName) ∧
    ((List.range' 1 (total_pics cfg)).map (photoFilename cfg baseName)).Nodup ∧
    ((List.range' 1 (total_pics cfg)).map (photoFilename cfg baseName)).length
      = total_pics cfg := by
  obtain ⟨s', hrun, htrace⟩ :=
    sessionBody_spec REAL_PATH cfg env baseName s henv hp
  rw [hrun]
  refine ⟨rfl, ?_, photoFilenames_nodup cfg baseName, ?_⟩
  · show capturePaths s'.trace = _
    rw [htrace, capturePaths_append, capturePaths_sessionEvents]
  · rw [List.length_map, List.length_range']

/-- C1 witness: a concrete completed fast-mode session (`N = 1`) writes
exactly the file `p/1of1.jpg`. -/
theorem claim_C1_witness :
    (1 ≤ total_pics cfgFastOnly ∧ 0 < prep_delay cfgFastOnly ∧
      envOk.fail "p" = none) ∧
    (runOk (sessionBody "" cfgFastOnly envOk "p" st0) = true ∧
      capturePaths (runTrace (sessionBody "" cfgFastOnly envOk "p" st0))
        = capturePaths st0.trace
          ++ (List.range' 1 (total_pics cfgFastOnly)).map
              (photoFilename cfgFastOnly "p") ∧
      ((List.range' 1 (total_pics cfgFastOnly)).map
          (photoFilename cfgFastOnly "p")).Nodup ∧
      ((List.range' 1 (total_pics cfgFastOnly)).map
          (photoFilename cfgFastOnly "p")).length = total_pics cfgFastOnly) :=
  ⟨⟨by decide, by decide, rfl⟩,
   claim_C1 "" cfgFastOnly envOk "p" st0 (by decide) (by decide) rfl⟩

/-- C2: `playback_screen` produces exactly the trace `pbEvents`, in which
each photo's overlay is added *before* the overlay it replaces (the
"processing" overlay for photo 1, photo `i-1`'s overlay for `i > 1`) is
removed; moreover `allPrefixesLive` certifies that at every instant of the
slideshow loop at least one persistent overlay is on the surface.  After the
loop, `pbEvents` removes the last photo's overlay and shows the "all done"
overlay for a finite 20 seconds. -/
theorem claim_C2 (REAL_PATH : String) (cfg : Config) (baseName : String)
    (s : PState) :
    playback_screen REAL_PATH cfg baseName s
      = ⟨s.dirs, s.nextId + 1 + total_pics cfg + 1,
         s.trace ++ pbEvents REAL_PATH cfg baseName s.nextId⟩ ∧
    allPrefixesLive [((s.nextId + 1 : Nat) : Int)]
      (pbLoopEvents cfg baseName (List.range' 1 (total_pics cfg)) (s.nextId + 1)
        ((s.nextId + 1 : Nat) : Int)) = true :=
  ⟨playback_screen_spec REAL_PATH cfg baseName s,
   pbLoopEvents_live cfg baseName _ (s.nextId + 1) _ (by omega)⟩

set_option linter.unusedVariables false in
/-- C5: In any poll cycle in which the exit-button condition holds — whatever
the capture sources (button edge, pending serial bytes, auto-press) say —
the cycle yields `Exit`, and the loop iteration leaves the loop without
running a session. -/
theorem claim_C5 (cfg : Config) (inp : CycleInput) (st : IdleState) (d : Nat)
    (hexit : inp.exitEdge = true)
    (hcap : inp.btnEdge = true ∨ 0 < st.serialBuf + inp.serialArrived ∨
      cfg.TESTMODE_AUTOPRESS_BUTTON = true) :
    (pollCycle cfg inp st).1 = .exitEv ∧
    mainIter cfg inp d st = ⟨false, none⟩ := by
  constructor
  · simp [pollCycle, hexit]
  · simp [mainIter, pollCycle, hexit]

/-- C5 witness: both buttons fire in the same cycle; the result is `Exit`
and no session. -/
theorem claim_C5_witness :
    (pollCycle cfgNormal ⟨true, true, 0⟩ ⟨0, 0, 0⟩).1 = .exitEv ∧
    mainIter cfgNormal ⟨true, true, 0⟩ 0 ⟨0, 0, 0⟩ = ⟨false, none⟩ :=
  claim_C5 cfgNormal ⟨true, true, 0⟩ ⟨0, 0, 0⟩ 0 rfl (Or.inl rfl)

/-- C6: each `taking_photo` call performs, in this order: the `mkdirs`
attempt on the session directory (with a non-`EEXIST` error propagating and
aborting, an `EEXIST` being swallowed by `ensureDir`), the countdown 3, 2, 1
in size-160 text at one-second intervals, the clearing of the countdown
text, the capture to `baseName/<pn>of<total_pics>.jpg`, and a 0.1-second
full-bright flash overlay — this is exactly the event list `tpEvents`. -/
theorem claim_C6 (REAL_PATH : String) (cfg : Config) (env : OSEnv) (pn : Nat)
    (baseName : String) (s : PState) :
    taking_photo REAL_PATH cfg env pn baseName s =
      match ensureDir env s.dirs baseName with
      | .error e => .error e
      | .ok dirs' =>
        .ok ⟨dirs', s.nextId + 1,
             s.trace ++ tpEvents REAL_PATH cfg baseName pn s.nextId⟩ :=
  taking_photo_spec REAL_PATH cfg env pn baseName s

/-- C7: `ensureDir` never raises when the directory already exists — after
any successful call the directory is present and a second call on the same
path succeeds and leaves the directory list intact — while a creation
failure with any error other than `EEXIST` is re-raised. -/
theorem claim_C7 (env : OSEnv) (dirs : List String) (p : String) :
    (∀ dirs', ensureDir env dirs p = .ok dirs' →
      p ∈ dirs' ∧ ensureDir env dirs' p = .ok dirs') ∧
    (∀ e, p ∉ dirs → env.fail p = some e → ensureDir env dirs p = .error e) := by
  constructor
  · intro dirs' h
    by_cases hp : p ∈ dirs
    · have hd : dirs' = dirs := by
        simp [ensureDir, makedirs, hp] at h
        exact h.symm
      subst hd
      exact ⟨hp, by simp [ensureDir, makedirs, hp]⟩
    · cases henv : env.fail p with
      | none =>
        have hd : dirs' = p :: dirs := by
          simp [ensureDir, makedirs, hp, henv] at h
          exact h.symm
        subst hd
        exact ⟨List.mem_cons_self p dirs,
          by simp [ensureDir, makedirs, List.mem_cons_self]⟩
      | some e =>
        have hne : e ≠ .eexist := by
          intro he
          exact env.fail_ne_eexist p (he ▸ henv)
        simp [ensureDir, makedirs, hp, henv, hne] at h
  · intro e hnp henv
    have hne : e ≠ .eexist := by
      intro he
      exact env.fail_ne_eexist p (he ▸ henv)
    simp [ensureDir, makedirs, hnp, henv, hne]

/-- C7 witness: a second `ensureDir` on an existing directory succeeds with
the directory intact, and an injected `EACCES` is re-raised. -/
theorem claim_C7_witness :
    ("d" ∈ (["d"] : List String) ∧ ensureDir envOk ["d"] "d" = .ok ["d"]) ∧
    ensureDir envFail [] "d" = .error .eacces :=
  ⟨(claim_C7 envOk ["d"] "d").1 ["d"] rfl,
   (claim_C7 envFail [] "d").2 .eacces (by simp) rfl⟩

/-- C8: every session base name is free of spaces and colons, and two valid
timestamps that differ (at second resolution) give distinct base names. -/
theorem claim_C8 (REAL_PATH : String) (t t' : PyTimestamp)
    (h : ValidTs t) (h' : ValidTs t') (hne : t ≠ t') :
    noBadChars (get_base_filename_for_images REAL_PATH t) = true ∧
    get_base_filename_for_images REAL_PATH t
      ≠ get_base_filename_for_images REAL_PATH t' :=
  ⟨noBadChars_get_base REAL_PATH t,
   fun heq => hne (get_base_inj REAL_PATH h h' heq)⟩

/-- C8 witness: two sessions one second apart get distinct, sanitized base
names. -/
theorem claim_C8_witness :
    noBadChars (get_base_filename_for_images "/home/pi/booth"
      ⟨2017, 12, 31, 23, 59, 58⟩) = true ∧
    get_base_filename_for_images "/home/pi/booth" ⟨2017, 12, 31, 23, 59, 58⟩
      ≠ get_base_filename_for_images "/home/pi/booth" ⟨2017, 12, 31, 23, 59, 59⟩ :=
  claim_C8 "/home/pi/booth" ⟨2017, 12, 31, 23, 59, 58⟩
    ⟨2017, 12, 31, 23, 59, 59⟩ (by decide) (by decide) (by decide)

set_option linter.unusedVariables false in
/-- C3: In the idle loop (`blink_speed = 2`, counter starting at 0, no
auto-press): one quiet poll leaves the alpha untouched, after exactly 2
consecutive `None` polls `overlay_2.alpha` is set to 255, it stays 255 after
3, and after exactly 4 it is set to 0 with the counter reset to 0; and a
button press at any reachable counter value `k < 4` makes the cycle yield
`Capture` and the loop iteration run a session, regardless of `k`. -/
theorem claim_C3 (cfg : Config) (hauto : cfg.TESTMODE_AUTOPRESS_BUTTON = false)
    (a k a' buf' d : Nat) (hk : k < 4) :
    pollNones cfg 1 ⟨0, a, 0⟩ = ⟨1, a, 0⟩ ∧
    pollNones cfg 2 ⟨0, a, 0⟩ = ⟨2, 255, 0⟩ ∧
    pollNones cfg 3 ⟨0, a, 0⟩ = ⟨3, 255, 0⟩ ∧
    pollNones cfg 4 ⟨0, a, 0⟩ = ⟨0, 0, 0⟩ ∧
    (pollCycle cfg ⟨true, false, 0⟩ ⟨k, a', buf'⟩).1 = .captureEv ∧
    (mainIter cfg ⟨true, false, 0⟩ d ⟨k, a', buf'⟩).ranSession = true := by
  have hcap : (pollCycle cfg ⟨true, false, 0⟩ ⟨k, a', buf'⟩).1 = .captureEv := by
    by_cases hb : 0 < buf' <;>
      simp [pollCycle, hauto, hb]
  refine ⟨?_, ?_, ?_, ?_, hcap, ?_⟩
  · simp [pollNones, pollCycle, noneInput, hauto, blink_speed]
  · simp [pollNones, pollCycle, noneInput, hauto, blink_speed]
  · simp [pollNones, pollCycle, noneInput, hauto, blink_speed]
  · simp [pollNones, pollCycle, noneInput, hauto, blink_speed]
  · by_cases hb : 0 < buf' <;>
      simp [mainIter, pollCycle, hauto, hb]

/-- C3 witness: the blink pattern from a fresh counter, and a capture at
counter value 3 with stale serial bytes around. -/
theorem claim_C3_witness :
    pollNones cfgNormal 1 ⟨0, 7, 0⟩ = ⟨1, 7, 0⟩ ∧
    pollNones cfgNormal 2 ⟨0, 7, 0⟩ = ⟨2, 255, 0⟩ ∧
    pollNones cfgNormal 3 ⟨0, 7, 0⟩ = ⟨3, 255, 0⟩ ∧
    pollNones cfgNormal 4 ⟨0, 7, 0⟩ = ⟨0, 0, 0⟩ ∧
    (pollCycle cfgNormal ⟨true, false, 0⟩ ⟨3, 255, 5⟩).1 = .captureEv ∧
    (mainIter cfgNormal ⟨true, false, 0⟩ 2 ⟨3, 255, 5⟩).ranSession = true :=
  claim_C3 cfgNormal rfl 7 3 255 5 2 (by decide)

/-- C4 counterexample: with only the fast-test flag set (auto-press off),
the loop iteration that runs a session *continues* with a fresh idle state —
the program returns to `Idle` instead of terminating, refuting the claim's
"terminates the process rather than returning to Idle" (termination is
controlled by the auto-press flag, camera.py lines 279-281). -/
theorem claim_C4_counterexample :
    cfgFastOnly.TESTMODE_FAST = true ∧
    total_pics cfgFastOnly = 1 ∧ prep_delay cfgFastOnly = 1 ∧
    (mainIter cfgFastOnly ⟨true, false, 0⟩ 0 ⟨0, 0, 0⟩).ranSession = true ∧
    (mainIter cfgFastOnly ⟨true, false, 0⟩ 0 ⟨0, 0, 0⟩).next
      = some ⟨0, 255, 0⟩ ∧
    (mainIter cfgFastOnly ⟨true, false, 0⟩ 0 ⟨0, 0, 0⟩).next ≠ none := by
  decide

set_option linter.unusedVariables false in
/-- C4 amended: with the fast-test flag set, a full run captures exactly 1
photo (`total_pics = 1`) and uses a 1-second preparation delay; after the
session the process terminates (instead of returning to `Idle`) if and only
if the auto-press flag is also set. -/
theorem claim_C4_amended (REAL_PATH : String) (cfg : Config) (env : OSEnv)
    (baseName : String) (s : PState) (inp : CycleInput) (d : Nat)
    (st : IdleState)
    (hfast : cfg.TESTMODE_FAST = true)
    (henv : env.fail baseName = none)
    (hbtn : inp.btnEdge = true) (hexit : inp.exitEdge = false) :
    total_pics cfg = 1 ∧ prep_delay cfg = 1 ∧
    capturePaths (runTrace (sessionBody REAL_PATH cfg env baseName s))
      = capturePaths s.trace ++ [photoFilename cfg baseName 1] ∧
    (mainIter cfg inp d st).ranSession = true ∧
    ((mainIter cfg inp d st).next = none
      ↔ cfg.TESTMODE_AUTOPRESS_BUTTON = true) := by
  have hN : total_pics cfg = 1 := by simp [total_pics, hfast]
  have hP : prep_delay cfg = 1 := by simp [prep_delay, hfast]
  obtain ⟨s', hrun, htrace⟩ :=
    sessionBody_spec REAL_PATH cfg env baseName s henv (by omega)
  have hiter : ∀ st' : IdleState,
      mainIter cfg inp d st = ⟨true,
        if cfg.TESTMODE_AUTOPRESS_BUTTON then none
        else some ⟨st.i, 255, 0⟩⟩ := by
    intro _
    cases inp with
    | mk b e sa =>
      simp only at hbtn hexit
      subst hbtn; subst hexit
      by_cases hb : 0 < st.serialBuf + sa <;>
        by_cases hap : cfg.TESTMODE_AUTOPRESS_BUTTON = true <;>
          simp [mainIter, pollCycle, hb, hap]
  refine ⟨hN, hP, ?_, ?_, ?_⟩
  · rw [hrun]
    show capturePaths s'.trace = _
    rw [htrace, capturePaths_append, capturePaths_sessionEvents, hN]
    rfl
  · rw [hiter st]
  · rw [hiter st]
    by_cases hap : cfg.TESTMODE_AUTOPRESS_BUTTON = true <;> simp [hap]

/-- C4 amended, witness: a concrete fast-only run captures `p/1of1.jpg` and
goes back to `Idle` (auto-press is off). -/
theorem claim_C4_amended_witness :
    total_pics cfgFastOnly = 1 ∧ prep_delay cfgFastOnly = 1 ∧
    capturePaths (runTrace (sessionBody "" cfgFastOnly envOk "p" st0))
      = capturePaths st0.trace ++ [photoFilename cfgFastOnly "p" 1] ∧
    (mainIter cfgFastOnly ⟨true, false, 0⟩ 3 ⟨1, 0, 2⟩).ranSession = true ∧
    ((mainIter cfgFastOnly ⟨true, false, 0⟩ 3 ⟨1, 0, 2⟩).next = none
      ↔ cfgFastOnly.TESTMODE_AUTOPRESS_BUTTON = true) :=
  claim_C4_amended "" cfgFastOnly envOk "p" st0 ⟨true, false, 0⟩ 3 ⟨1, 0, 2⟩
    rfl rfl rfl rfl

/-- C9: on every exit path of the program — `main` returning normally,
a `KeyboardInterrupt`, or any unhandled exception — the `finally:` block
runs `camera.stop_preview()`, `camera.close()` and `GPIO.cleanup()`, so each
of the three teardown events occurs exactly once in the final trace
(provided `main`'s own trace contains none, which holds for every trace the
program emits: no screen function produces a teardown event). -/
theorem claim_C9 (r : MainOutcome) (tr : List Event)
    (h : ∀ e ∈ tr, isTeardown e = false) :
    (mainWrapper r tr).count .stopPreview = 1 ∧
    (mainWrapper r tr).count .closeCamera = 1 ∧
    (mainWrapper r tr).count .gpioCleanup = 1 := by
  have key : ∀ a : Event, isTeardown a = true → List.count a tr = 0 := by
    intro a ha
    rw [List.count_eq_zero]
    intro mem
    rw [h a mem] at ha
    exact Bool.false_ne_true ha
  refine ⟨?_, ?_, ?_⟩
  · simp only [mainWrapper, List.count_append, key Event.stopPreview rfl]
    cases r <;> simp [List.count_cons, List.count_nil]
  · simp only [mainWrapper, List.count_append, key Event.closeCamera rfl]
    cases r <;> simp [List.count_cons, List.count_nil]
  · simp only [mainWrapper, List.count_append, key Event.gpioCleanup rfl]
    cases r <;> simp [List.count_cons, List.count_nil]

/-- C9 witness: teardown counts on the interrupted path with an empty main
trace. -/
theorem claim_C9_witness :
    (mainWrapper .interrupted []).count .stopPreview = 1 ∧
    (mainWrapper .interrupted []).count .closeCamera = 1 ∧
    (mainWrapper .interrupted []).count .gpioCleanup = 1 :=
  claim_C9 .interrupted [] (by simp)

/-- C10: after a session completes in normal mode (auto-press off), the
serial input buffer is reset to 0 before polling resumes — whatever arrived
during the session (`d` bytes) is discarded — so the next all-quiet poll
cycle yields `None`, not `Capture`. -/
theorem claim_C10 (cfg : Config) (inp : CycleInput) (st : IdleState) (d : Nat)
    (hauto : cfg.TESTMODE_AUTOPRESS_BUTTON = false)
    (hexit : inp.exitEdge = false)
    (hcap : inp.btnEdge = true ∨ 0 < st.serialBuf + inp.serialArrived) :
    mainIter cfg inp d st = ⟨true, some ⟨st.i, 255, 0⟩⟩ ∧
    (pollCycle cfg noneInput ⟨st.i, 255, 0⟩).1 = .noneEv := by
  constructor
  · cases inp with
    | mk b e sa =>
      simp only at hexit
      subst hexit
      rcases hcap with hbtn | hser
      · simp only at hbtn
        subst hbtn
        by_cases hb : 0 < st.serialBuf + sa <;>
          simp [mainIter, pollCycle, hauto, hb]
      · have hb : 0 < st.serialBuf + sa := hser
        simp [mainIter, pollCycle, hauto, hb]
  · by_cases h2 : st.i + 1 = blink_speed <;>
      by_cases h4 : st.i + 1 = 2 * blink_speed <;>
        simp [pollCycle, noneInput, hauto, h2, h4, apply_ite, ite_self]

/-- C10 witness: stale serial bytes trigger a session; afterwards the buffer
is 0 and the next quiet poll is `None`. -/
theorem claim_C10_witness :
    mainIter cfgNormal ⟨false, false, 3⟩ 7 ⟨1, 0, 0⟩ = ⟨true, some ⟨1, 255, 0⟩⟩ ∧
    (pollCycle cfgNormal noneInput ⟨1, 255, 0⟩).1 = .noneEv :=
  claim_C10 cfgNormal ⟨false, false, 3⟩ ⟨1, 0, 0⟩ 7 rfl rfl
    (Or.inr (by decide))

end PhotoBooth
